import Mathlib

/-!
# StudyRPG group boss battle engine — verification development

Shallow embedding of the cooperative group-boss-battle subsystem of the
StudyRPG repository:

* `app/models.py` — the `User`, `GroupBossBattle`, `UserGroupBossBattle` and
  `UserStudyGroup` tables (the fields the battle engine reads or writes);
* `app/schemas.py` — the `BossAttack` request schema (`damage: int = Field(..., ge=1)`);
* `app/routers/leveling_router.py` — `calculate_xp_for_level`,
  `get_level_from_xp`, `get_user_xp`, `update_user_xp_and_level`, `award_xp`;
* `app/routers/group_boss_battles.py` — the `attack_group_boss` endpoint
  (validation, gating query, health/score mutation, completion, the reward
  loop, the broadcast) and the `websocket_group_boss_battle` endpoint
  (authorization phase and the inbound-frame loop);
* `app/connection_manager.py` — `ConnectionManager.connect`, `disconnect`,
  `broadcast_to_group`.

The database session is modelled as an explicit record of table contents;
an HTTP error is an `Except` error value; a WebSocket connection is a `Nat`
handle; whether `send_text` succeeds on a given connection is supplied as a
`Nat → Bool` oracle.
-/

namespace StudyRPG

/-! ## Data model (`app/models.py`) -/

/-- Row of the `user` table: the fields the battle engine touches
(`models.py` lines 121–124: `xp`, `skill_points`, `level`). -/
structure User where
  id : Nat
  username : String
  xp : Int
  level : Nat
  skill_points : Int
deriving DecidableEq, Repr

/-- Row of the `group_boss_battle` table (`models.py` lines 233–248).
The table has no `is_active` column (unlike the single-player `boss_battle`
table); attack gating is done purely on `is_completed`. -/
structure GroupBossBattle where
  id : Nat
  group_id : Nat
  name : String
  difficulty : Int
  current_health : Int
  group_health : Int
  score : Int
  reward_xp : Int
  reward_skill_points : Int
  reward_items : Option String
  is_completed : Bool
  passed : Option Bool
deriving DecidableEq, Repr

/-- Row of the `user_group_boss_battle` association table: a Participant
link (battle id, user id). -/
structure UserGroupBossBattle where
  group_boss_battle_id : Nat
  user_id : Nat
deriving DecidableEq, Repr

/-- Row of the `user_study_group` table: group membership. -/
structure UserStudyGroup where
  user_id : Nat
  group_id : Nat
deriving DecidableEq, Repr

/-- Row of a user-inventory item record.  The battle router never touches
any item table; it is included so that theorems can speak about item grants
(or their absence). -/
structure UserItem where
  user_id : Nat
  item : String
deriving DecidableEq, Repr

/-- The database state visible to the battle engine. -/
structure DB where
  users : List User
  group_boss_battles : List GroupBossBattle
  user_group_boss_battles : List UserGroupBossBattle
  user_study_groups : List UserStudyGroup
  user_items : List UserItem
deriving DecidableEq, Repr

/-! ## Queries used by the attack endpoint -/

/-- `select(GroupBossBattle).where(id == battle_id, is_completed == False)`
(`group_boss_battles.py` lines 337–343): the gating query of
`attack_group_boss`. -/
def DB.findActiveBattle (db : DB) (battle_id : Nat) : Option GroupBossBattle :=
  db.group_boss_battles.find? (fun b => b.id == battle_id && !b.is_completed)

/-- `verify_group_member` (`group_boss_battles.py` lines 23–35): is there a
`UserStudyGroup` row with this group id and user id. -/
def verify_group_member (db : DB) (user_id group_id : Nat) : Bool :=
  db.user_study_groups.any (fun m => m.group_id == group_id && m.user_id == user_id)

/-- The participant-link check of `attack_group_boss` (lines 355–363). -/
def is_battle_participant (db : DB) (battle_id user_id : Nat) : Bool :=
  db.user_group_boss_battles.any
    (fun l => l.group_boss_battle_id == battle_id && l.user_id == user_id)

/-- `select(UserGroupBossBattle).where(group_boss_battle_id == battle_id)`
(lines 376–380): all participant links of a battle, in table order. -/
def battle_participants (db : DB) (battle_id : Nat) : List UserGroupBossBattle :=
  db.user_group_boss_battles.filter (fun l => l.group_boss_battle_id == battle_id)

/-! ## Leveling (`app/routers/leveling_router.py`) -/

/-- `calculate_xp_for_level` (lines 34–38): total XP required to reach a
level; `0` for level ≤ 1, else `(level - 1) * 100`. -/
def calculate_xp_for_level (level : Nat) : Int :=
  if level ≤ 1 then 0 else ((level : Int) - 1) * 100

/-- The `while total_xp >= calculate_xp_for_level(level + 1): level += 1`
loop of `get_level_from_xp` (lines 40–48), with explicit fuel; the fuel
chosen by `get_level_from_xp` dominates the number of iterations the
Python loop performs. -/
def get_level_from_xp_loop : Nat → Int → Nat → Nat
  | 0, _, level => level
  | fuel + 1, total_xp, level =>
    if total_xp ≥ calculate_xp_for_level (level + 1) then
      get_level_from_xp_loop fuel total_xp (level + 1)
    else level

/-- `get_level_from_xp` (lines 40–48): `1` for negative XP, else the loop
starting at level 1. -/
def get_level_from_xp (total_xp : Int) : Nat :=
  if total_xp < 0 then 1
  else get_level_from_xp_loop (total_xp.toNat + 2) total_xp 1

/-- An `HTTPException` raised by the leveling helpers. -/
structure HttpError where
  status : Nat
  detail : String
deriving DecidableEq, Repr

/-- `get_user_xp` (lines 51–64): looks the user up; a missing user raises
`HTTPException(404)` inside the `try`, which the blanket
`except Exception` re-raises as `HTTPException(500)`. -/
def get_user_xp (db : DB) (user_id : Nat) : Except HttpError Int :=
  match db.users.find? (fun u => u.id == user_id) with
  | none => .error ⟨500, "Failed to get user XP"⟩
  | some u => .ok u.xp

/-- The SQLAlchemy session during the attack transaction. `committed` is
the durably committed database; `current` is the working state the
session's pending and flushed changes describe. `db.commit()` makes
`committed := current`; an exception aborts the transaction and the
surviving state is `committed` — everything since the last commit (flushed
or merely pending) is rolled back. -/
structure Session where
  committed : DB
  current : DB
deriving DecidableEq, Repr

/-- `update_user_xp_and_level` (lines 66–80):
`UPDATE user SET xp = new_xp, level = get_level_from_xp(new_xp) WHERE id = user_id`
followed by the function's own explicit `await db.commit()` (line 74), so
the credit — together with everything already flushed into the open
transaction, the mutated battle row included — is durably committed here,
in the middle of the reward loop. Returns `True` on success (its own
failures are caught and return `False`; the UPDATE itself cannot fail in
the model). -/
def update_user_xp_and_level (s : Session) (user_id : Nat) (new_xp : Int) :
    Session × Bool :=
  let new_level := get_level_from_xp new_xp
  let cur := { s.current with
      users := s.current.users.map (fun u =>
        if u.id == user_id then { u with xp := new_xp, level := new_level } else u) }
  (⟨cur, cur⟩, true)

/-- `award_xp` (lines 118–161): rejects a non-positive amount with
`HTTPException(400)`, reads the current XP (propagating `get_user_xp`'s
exception), and writes — and commits — `old + amount` via
`update_user_xp_and_level`. An error carries the rolled-back state: the
exception aborts the transaction and the database reverts to what was last
committed. -/
def award_xp (s : Session) (user_id : Nat) (xp_amount : Int) :
    Except (HttpError × DB) Session :=
  if xp_amount ≤ 0 then .error (⟨400, "XP amount must be positive"⟩, s.committed)
  else
    match get_user_xp s.current user_id with
    | .error e => .error (e, s.committed)
    | .ok old_total_xp =>
      .ok (update_user_xp_and_level s user_id (old_total_xp + xp_amount)).1

/-! ## The reward loop of `attack_group_boss` (lines 375–389) -/

/-- One iteration of the reward loop: `award_xp(db, user_id, reward_xp)`
(an exception propagates; on success the credit is committed), then
re-select the user and, if present, add `reward_skill_points` to
`skill_points` — a pending session change, not committed until the next
iteration's `award_xp` or the endpoint's final commit. -/
def credit_participant (s : Session) (battle : GroupBossBattle) (uid : Nat) :
    Except (HttpError × DB) Session := do
  let s1 ← award_xp s uid battle.reward_xp
  match s1.current.users.find? (fun u => u.id == uid) with
  | none => .ok s1
  | some _ =>
    .ok { s1 with
          current := { s1.current with
            users := s1.current.users.map (fun u =>
              if u.id == uid then
                { u with skill_points := u.skill_points + battle.reward_skill_points }
              else u) } }

/-- The `for user_battle in result.scalars().all():` loop (lines 381–389),
folded over the snapshot of participant links taken at lines 376–380. -/
def distribute_rewards (s : Session) (battle : GroupBossBattle) (battle_id : Nat) :
    Except (HttpError × DB) Session :=
  (battle_participants s.current battle_id).foldlM
    (fun acc l => credit_participant acc battle l.user_id) s

/-! ## The attack endpoint (`attack_group_boss`, lines 324–414) -/

/-- Errors the attack call can surface (request validation, the endpoint's
own `HTTPException`s, and a propagated exception from the reward loop). -/
inductive AttackError where
  /-- Pydantic rejects the `BossAttack` body (`schemas.py` line 184:
  `damage: int = Field(..., ge=1)`) before the handler runs. -/
  | validationError
  /-- 401 "Authentication required" (lines 332–334). -/
  | authRequired
  /-- 404 "Battle not found or already completed" (lines 344–346). -/
  | battleNotFoundOrCompleted
  /-- 403 "You must be a member of this study group …" (lines 349–352). -/
  | notGroupMember
  /-- 403 "You must join the battle first to attack" (lines 361–363). -/
  | notParticipant
  /-- An `HTTPException` raised inside the reward loop propagates out of
  the transaction through `except HTTPException: raise`; the abort reverts
  the database to the state of the last mid-loop commit. -/
  | internalError (e : HttpError)
deriving DecidableEq, Repr

/-- The `battle_update` JSON frame broadcast after an attack
(lines 396–407). -/
structure BattleUpdateMsg where
  battle_id : Nat
  current_health : Int
  score : Int
  is_completed : Bool
  passed : Option Bool
deriving DecidableEq, Repr

/-- Result of a successful attack: the committed database, the battle row
returned to the caller, and the single broadcast (channel key, message). -/
structure AttackResult where
  db : DB
  battle : GroupBossBattle
  channel : String
  message : BattleUpdateMsg
deriving DecidableEq, Repr

/-- The in-place mutation of lines 367–373:
`current_health -= damage; score += damage;` then, when the decremented
health is ≤ 0, set `is_completed`, `passed` and clamp health to 0. -/
def battle_after_hit (b : GroupBossBattle) (damage : Int) : GroupBossBattle :=
  if b.current_health - damage ≤ 0 then
    { b with current_health := 0, score := b.score + damage,
             is_completed := true, passed := some true }
  else
    { b with current_health := b.current_health - damage,
             score := b.score + damage }

/-- Whether this hit takes the completion branch (line 370:
`if battle.current_health <= 0:` after the decrement). -/
def hit_completes (b : GroupBossBattle) (damage : Int) : Bool :=
  b.current_health - damage ≤ 0

/-- The session's view of the database once the in-memory battle mutation
of lines 367–373 has been flushed: the battle row replaced by its mutated
value. -/
def db_with_battle (db : DB) (battle_id : Nat) (battle' : GroupBossBattle) : DB :=
  { db with
    group_boss_battles := db.group_boss_battles.map
      (fun b => if b.id == battle_id then battle' else b) }

/-- `POST /{battle_id}/attack` (`attack_group_boss`, lines 324–414),
returning the response and the database state after the call.
Request validation and the 401/404/403 checks fail before the transaction,
leaving the database untouched. Inside the transaction the battle mutation
enters the session's current state, the reward loop runs on completion
(each `award_xp` commits mid-loop via `update_user_xp_and_level`'s
`db.commit()`), and a propagated exception from the loop surfaces through
`except HTTPException: raise` while the aborted transaction reverts the
database to what was last committed — the original state when no credit
was committed yet, otherwise the mutated battle row plus the credits of
the earlier iterations. On success the final commit (line 392) makes the
whole current state durable, and the post-mutation snapshot is broadcast
to channel `f"group_{battle.group_id}"`. -/
def attack_group_boss_run (db : DB) (battle_id : Nat) (current_user : Option Nat)
    (damage : Int) : Except AttackError AttackResult × DB :=
  if damage < 1 then (.error .validationError, db)
  else
    match current_user with
    | none => (.error .authRequired, db)
    | some uid =>
      match db.findActiveBattle battle_id with
      | none => (.error .battleNotFoundOrCompleted, db)
      | some battle =>
        if !verify_group_member db uid battle.group_id then (.error .notGroupMember, db)
        else if !is_battle_participant db battle_id uid then (.error .notParticipant, db)
        else
          let battle' := battle_after_hit battle damage
          let rewarded : Except (HttpError × DB) Session :=
            if hit_completes battle damage then
              distribute_rewards ⟨db, db_with_battle db battle_id battle'⟩ battle' battle_id
            else .ok ⟨db, db_with_battle db battle_id battle'⟩
          match rewarded with
          | .error (e, rolled) => (.error (.internalError e), rolled)
          | .ok s =>
            (.ok { db := s.current, battle := battle',
                   channel := "group_" ++ toString battle.group_id,
                   message := { battle_id := battle_id,
                                current_health := battle'.current_health,
                                score := battle'.score,
                                is_completed := battle'.is_completed,
                                passed := battle'.passed } },
             s.current)

/-- The response of the attack endpoint. -/
def attack_group_boss (db : DB) (battle_id : Nat) (current_user : Option Nat)
    (damage : Int) : Except AttackError AttackResult :=
  (attack_group_boss_run db battle_id current_user damage).1

/-- Database state after an attack call: the committed state on success;
the untouched state when the call fails before the transaction; and, when
the reward loop raises, the state of the last mid-loop commit — earlier
iterations' committed credits and the flushed battle row persist. -/
def attack_db_after (db : DB) (battle_id : Nat) (u : Option Nat) (d : Int) : DB :=
  (attack_group_boss_run db battle_id u d).2

/-- `ConnectionManager.active_connections: Dict[str, Set[WebSocket]]`
(line 10), modelled as an association list from channel key to the list of
connection handles (a Python set: no duplicate handles under one key). -/
structure ConnectionManager where
  active_connections : List (String × List Nat)
deriving DecidableEq, Repr

/-- `ConnectionManager()` — the empty registry. -/
def ConnectionManager.empty : ConnectionManager := ⟨[]⟩

/-- `self.active_connections[key]` when present. -/
def ConnectionManager.getConns (m : ConnectionManager) (key : String) :
    Option (List Nat) :=
  (m.active_connections.find? (fun p => p.1 == key)).map Prod.snd

/-- `self.active_connections[key] = conns` (replace when present, insert
otherwise). -/
def ConnectionManager.setConns (m : ConnectionManager) (key : String)
    (conns : List Nat) : ConnectionManager :=
  if m.active_connections.any (fun p => p.1 == key) then
    ⟨m.active_connections.map (fun p => if p.1 == key then (key, conns) else p)⟩
  else
    ⟨m.active_connections ++ [(key, conns)]⟩

/-- `del self.active_connections[key]`. -/
def ConnectionManager.delConns (m : ConnectionManager) (key : String) :
    ConnectionManager :=
  ⟨m.active_connections.filter (fun p => p.1 != key)⟩

/-- `connect` (`connection_manager.py` lines 12–21): accept the socket,
create the key's set if missing, add the socket to the set. -/
def ConnectionManager.connect (m : ConnectionManager) (ws : Nat) (key : String) :
    ConnectionManager :=
  match m.getConns key with
  | none => m.setConns key [ws]
  | some conns => if ws ∈ conns then m else m.setConns key (conns ++ [ws])

/-- `disconnect` (lines 23–32): if the key is present, discard the socket
from its set and delete the key when the set becomes empty. -/
def ConnectionManager.disconnect (m : ConnectionManager) (ws : Nat) (key : String) :
    ConnectionManager :=
  match m.getConns key with
  | none => m
  | some conns =>
    let conns' := conns.filter (fun c => c != ws)
    if conns'.isEmpty then m.delConns key else m.setConns key conns'

/-- `broadcast_to_group` (lines 34–44): if the key is absent, return;
otherwise iterate a snapshot (`list(self.active_connections[group_key])`)
of the subscriber set, sending to each connection; a send failure
(`sendOk conn = false`) calls `disconnect(connection, group_key)` and the
loop continues.  Returns the updated registry and the list of connections
the message was delivered to. -/
def ConnectionManager.broadcast_to_group (m : ConnectionManager)
    (sendOk : Nat → Bool) (group_key : String) : ConnectionManager × List Nat :=
  match m.getConns group_key with
  | none => (m, [])
  | some snapshot =>
    snapshot.foldl
      (fun acc conn =>
        if sendOk conn then (acc.1, acc.2 ++ [conn])
        else (acc.1.disconnect conn group_key, acc.2))
      (m, [])

/-- Parameter names of `ConnectionManager.broadcast_to_group`
(`connection_manager.py` line 34: `(self, message: str, group_key: str)`),
excluding `self`.  `broadcast_to_group` has no exclusion/sender
parameter. -/
def broadcast_to_group_param_names : List String := ["message", "group_key"]

/-- Can a Python call that passes the given keyword arguments bind against
a function with the given parameter names?  When not, the call raises
`TypeError` before the function body runs. -/
def call_accepts_kwargs (params kwargs : List String) : Bool :=
  kwargs.all (fun k => params.contains k)

/-! ## The battle WebSocket (`websocket_group_boss_battle`, lines 416–509) -/

/-- The channel key the battle-stream endpoint subscribes a connection
under (line 459: `manager.connect(websocket, f"battle_{battle_id}")`). -/
def ws_channel_key (battle_id : Nat) : String := "battle_" ++ toString battle_id

/-- An inbound JSON frame on the battle stream: its `type` field and the
payload fields the handler reads. -/
structure InboundFrame where
  type : String
  damage : Option Int
  content : Option String
deriving DecidableEq, Repr

/-- The `chat_message` JSON frame rebroadcast for a chat payload
(lines 468–478), with the sender metadata attached. -/
structure ChatMsg where
  battle_id : Nat
  user_id : Nat
  username : String
  content : String
deriving DecidableEq, Repr

/-- Observable outcome of handling one inbound frame in the message loop
(lines 462–503). -/
inductive WsOutcome where
  /-- `broadcast_to_group(chat json, f"battle_{battle_id}")`. -/
  | chatBroadcast (channel : String) (msg : ChatMsg)
  /-- The `else` branch's `broadcast_to_group(..., sender=websocket)`
  bound successfully and rebroadcast the wrapped payload. -/
  | otherBroadcast (channel : String)
  /-- The handler raised: the `except Exception` clause (lines 497–503)
  sends an `error` frame and closes the socket with this code. -/
  | errorClose (code : Nat)
deriving DecidableEq, Repr

/-- One iteration of the inbound-message loop (lines 463–493).  A frame of
type `chat_message` is rebroadcast to `f"battle_{battle_id}"` with sender
metadata (lines 467–478).  Every other frame type reaches the `else`
branch (lines 479–491), whose call
`manager.broadcast_to_group(..., f"battle_{battle_id}", sender=websocket)`
passes a keyword argument `broadcast_to_group` does not declare, raising
`TypeError`; the handler's `except Exception` then sends an error frame
and closes with code 1003.  No branch of the loop calls
`attack_group_boss` or mutates the battle, so the database is returned
unchanged. -/
def ws_handle_frame (db : DB) (battle_id : Nat) (uid : Nat) (username : String)
    (frame : InboundFrame) : DB × WsOutcome :=
  if frame.type == "chat_message" then
    (db, .chatBroadcast (ws_channel_key battle_id)
      { battle_id := battle_id, user_id := uid, username := username,
        content := frame.content.getD "" })
  else
    if call_accepts_kwargs broadcast_to_group_param_names ["sender"] then
      (db, .otherBroadcast (ws_channel_key battle_id))
    else
      (db, .errorClose 1003)

/-! ## Projections and invariant predicates used by the theorems -/

/-- Every battle row with id `B` is completed: the terminal state in which
the gating query of `attack_group_boss` can never select battle `B`
again. -/
def battle_closed (db : DB) (B : Nat) : Bool :=
  db.group_boss_battles.all (fun b => b.id != B || b.is_completed)

/-- Channel Registry invariant: every key present in `active_connections`
maps to a non-empty subscriber set. -/
def cm_inv (m : ConnectionManager) : Bool :=
  m.active_connections.all (fun p => !p.2.isEmpty)

/-! ## Concrete example data (used by witnesses and counterexamples) -/

/-- Two users in study group 5. -/
def exUsers : List User := [⟨1, "alice", 0, 1, 0⟩, ⟨2, "bob", 10, 1, 3⟩]

/-- A fresh battle of group 5: 100 health, rewards 50 xp / 5 skill points /
item list `"potion"`. -/
def exBattle : GroupBossBattle :=
  ⟨1, 5, "boss", 3, 100, 100, 0, 50, 5, some "potion", false, none⟩

/-- A database where users 1 and 2 are members of group 5, both joined
battle 1, and user 1 owns one inventory item. -/
def exDB : DB :=
  ⟨exUsers, [exBattle], [⟨1, 1⟩, ⟨1, 2⟩], [⟨1, 5⟩, ⟨2, 5⟩], [⟨1, "sword"⟩]⟩

/-- `exBattle` after hits of 60 and 60: completed with uncapped score. -/
def exBattleFinal : GroupBossBattle :=
  ⟨1, 5, "boss", 3, 0, 100, 120, 50, 5, some "potion", true, some true⟩

/-- `exDB` with battle 1 already completed. -/
def exDBdone : DB :=
  ⟨exUsers, [exBattleFinal], [⟨1, 1⟩, ⟨1, 2⟩], [⟨1, 5⟩, ⟨2, 5⟩], [⟨1, "sword"⟩]⟩

/-- A registry with the three connections 1 (A), 2 (B), 3 (C) subscribed
under the channel key `"battle_1"`. -/
def exCm3 : ConnectionManager := ⟨[("battle_1", [1, 2, 3])]⟩


/-- When every stored row with id `B` is completed, the gating query
selects nothing. -/
theorem findActiveBattle_eq_none_of_closed {db : DB} {B : Nat}
    (h : battle_closed db B = true) : db.findActiveBattle B = none := by
  unfold DB.findActiveBattle
  rw [List.find?_eq_none]
  intro b hb
  unfold battle_closed at h
  rw [List.all_eq_true] at h
  have hbB := h b hb
  by_cases hid : (b.id == B) = true
  · have h1 : (b.id != B) = false := by simp [bne, hid]
    rw [h1, Bool.false_or] at hbB
    simp [hbB]
  · simp [hid]

theorem cm_inv_setConns {m : ConnectionManager} {key : String} {conns : List Nat}
    (h : cm_inv m = true) (hne : conns.isEmpty = false) :
    cm_inv (m.setConns key conns) = true := by
  unfold ConnectionManager.setConns
  split
  · unfold cm_inv at h ⊢
    rw [List.all_eq_true] at h ⊢
    intro p hp
    obtain ⟨q, hq, rfl⟩ := List.mem_map.mp hp
    by_cases hqk : (q.1 == key) = true
    · rw [if_pos hqk]
      simp [hne]
    · rw [if_neg hqk]
      exact h q hq
  · unfold cm_inv at h ⊢
    rw [List.all_eq_true] at h ⊢
    intro p hp
    rcases List.mem_append.mp hp with h1 | h1
    · exact h p h1
    · have : p = (key, conns) := by simpa using h1
      subst this
      simp [hne]

theorem cm_inv_delConns {m : ConnectionManager} {key : String}
    (h : cm_inv m = true) : cm_inv (m.delConns key) = true := by
  unfold ConnectionManager.delConns
  unfold cm_inv at h ⊢
  rw [List.all_eq_true] at h ⊢
  intro p hp
  exact h p (List.mem_of_mem_filter hp)

theorem cm_inv_connect {m : ConnectionManager} (ws : Nat) (key : String)
    (h : cm_inv m = true) : cm_inv (m.connect ws key) = true := by
  unfold ConnectionManager.connect
  split
  · exact cm_inv_setConns h rfl
  · rename_i conns hc
    split
    · exact h
    · exact cm_inv_setConns h (by simp)

theorem cm_inv_disconnect {m : ConnectionManager} (ws : Nat) (key : String)
    (h : cm_inv m = true) : cm_inv (m.disconnect ws key) = true := by
  unfold ConnectionManager.disconnect
  split
  · exact h
  · rename_i conns hc
    simp only []
    split
    · exact cm_inv_delConns h
    · rename_i hne
      exact cm_inv_setConns h (by simpa using hne)

theorem cm_inv_broadcast_fold (snapshot : List Nat) (sendOk : Nat → Bool)
    (key : String) :
    ∀ (acc : ConnectionManager × List Nat), cm_inv acc.1 = true →
    cm_inv ((snapshot.foldl (fun acc conn =>
      if sendOk conn then (acc.1, acc.2 ++ [conn])
      else (acc.1.disconnect conn key, acc.2)) acc).1) = true := by
  induction snapshot with
  | nil => intro acc h; exact h
  | cons conn rest ih =>
    intro acc h
    rw [List.foldl_cons]
    by_cases hs : sendOk conn = true
    · rw [if_pos hs]
      exact ih _ h
    · rw [if_neg hs]
      exact ih _ (cm_inv_disconnect conn key h)

theorem cm_inv_broadcast {m : ConnectionManager} (sendOk : Nat → Bool)
    (key : String) (h : cm_inv m = true) :
    cm_inv ((m.broadcast_to_group sendOk key).1) = true := by
  unfold ConnectionManager.broadcast_to_group
  split
  · exact h
  · exact cm_inv_broadcast_fold _ sendOk key (m, []) h

/-- Claim C10: the Channel Registry invariant — every key present in the
connection map has a non-empty subscriber set — holds for the empty
registry and is preserved by `connect`, `disconnect` and
`broadcast_to_group` (including its implicit removal of failed
connections). -/
theorem C10_registry_invariant :
    cm_inv ConnectionManager.empty = true ∧
    (∀ (m : ConnectionManager) (ws : Nat) (key : String),
      cm_inv m = true → cm_inv (m.connect ws key) = true) ∧
    (∀ (m : ConnectionManager) (ws : Nat) (key : String),
      cm_inv m = true → cm_inv (m.disconnect ws key) = true) ∧
    (∀ (m : ConnectionManager) (sendOk : Nat → Bool) (key : String),
      cm_inv m = true → cm_inv ((m.broadcast_to_group sendOk key).1) = true) :=
  ⟨rfl,
   fun _ ws key h => cm_inv_connect ws key h,
   fun _ ws key h => cm_inv_disconnect ws key h,
   fun _ sendOk key h => cm_inv_broadcast sendOk key h⟩

/-- Claim C10 witness: the invariant after a concrete broadcast in which
connection 2's send fails. -/
theorem C10_witness :
    cm_inv ((exCm3.broadcast_to_group (fun c => c != 2) "battle_1").1) = true :=
  C10_registry_invariant.2.2.2 exCm3 (fun c => c != 2) "battle_1" (by decide)

/-- Claim C6 counterexample: `broadcast_to_group` has no exclusion
parameter — publishing to a channel with subscribers {1, 2, 3} delivers to
all three, including the would-be excluded sender; and the only call site
that attempts an exclusion passes a keyword `sender` that
`broadcast_to_group`'s parameter list does not accept (a `TypeError` in
Python), so "publish with A excluded delivers to exactly {B, C}" fails. -/
theorem C6_counterexample :
    (exCm3.broadcast_to_group (fun _ => true) "battle_1").2 = [1, 2, 3] ∧
    call_accepts_kwargs broadcast_to_group_param_names ["sender"] = false := by
  exact ⟨by decide, by decide⟩

/-- Claim C6 (amended): publish delivers to every current subscriber (no
exclusion); when connection 2's send fails, delivery to the remaining
subscribers is not interrupted (1 and 3 still receive), 2 is implicitly
unsubscribed, and a subsequent publish delivers to exactly {1, 3}. -/
theorem C6_publish_failure_semantics :
    (exCm3.broadcast_to_group (fun _ => true) "battle_1").2 = [1, 2, 3] ∧
    (exCm3.broadcast_to_group (fun c => c != 2) "battle_1").2 = [1, 3] ∧
    (exCm3.broadcast_to_group (fun c => c != 2) "battle_1").1 =
      ⟨[("battle_1", [1, 3])]⟩ ∧
    (((exCm3.broadcast_to_group (fun c => c != 2) "battle_1").1).broadcast_to_group
      (fun _ => true) "battle_1").2 = [1, 3] := by
  exact ⟨by decide, by decide, by decide, by decide⟩

/-- Claim C8 counterexample: an inbound frame of type `"attack"` with
positive damage 5 is not dispatched to the attack operation — the handler
leaves the database untouched and the connection is closed with code 1003
after the failing rebroadcast call. -/
theorem C8_counterexample :
    ws_handle_frame exDB 1 2 "bob" ⟨"attack", some 5, none⟩ =
      (exDB, .errorClose 1003) := by
  exact (by decide)

/-- Claim C8 (amended): the battle-stream message loop never mutates the
battle; a `chat_message` frame is republished to the battle channel with
sender metadata attached, and every other frame type — attack frames
included — hits the rebroadcast call whose `sender` keyword argument
`broadcast_to_group` does not accept, so the handler sends an error frame
and closes the connection with code 1003. -/
theorem C8_frame_dispatch (db : DB) (bid uid : Nat) (un : String)
    (frame : InboundFrame) :
    (ws_handle_frame db bid uid un frame).1 = db ∧
    (frame.type = "chat_message" →
      (ws_handle_frame db bid uid un frame).2 =
        .chatBroadcast (ws_channel_key bid) ⟨bid, uid, un, frame.content.getD ""⟩) ∧
    (frame.type ≠ "chat_message" →
      (ws_handle_frame db bid uid un frame).2 = .errorClose 1003) := by
  unfold ws_handle_frame
  by_cases h : (frame.type == "chat_message") = true
  · rw [if_pos h]
    exact ⟨rfl, fun _ => rfl, fun hne => absurd (by simpa using h) hne⟩
  · rw [if_neg h]
    have hkw : call_accepts_kwargs broadcast_to_group_param_names ["sender"] = false := by
      decide
    rw [if_neg (by simp [hkw])]
    exact ⟨rfl, fun hEq => absurd (by simp [hEq]) h, fun _ => rfl⟩

/-- Claim C8 witness: a chat frame is republished with sender metadata; a
`"ping"` frame is answered with the 1003 error close. -/
theorem C8_witness :
    (ws_handle_frame exDB 1 2 "bob" ⟨"chat_message", none, some "hi"⟩).2 =
      .chatBroadcast (ws_channel_key 1) ⟨1, 2, "bob", "hi"⟩ ∧
    (ws_handle_frame exDB 1 2 "bob" ⟨"ping", none, none⟩).2 = .errorClose 1003 :=
  ⟨(C8_frame_dispatch exDB 1 2 "bob" ⟨"chat_message", none, some "hi"⟩).2.1 rfl,
   (C8_frame_dispatch exDB 1 2 "bob" ⟨"ping", none, none⟩).2.2 (by decide)⟩


/-- Claim C3: once a battle is completed, every further attack on it fails
with the closed-battle error (the 404 "Battle not found or already
completed" raised when the gating query selects nothing) and the database
is left entirely unchanged. -/
theorem C3_attack_after_completion_rejected (db : DB) (bid uid : Nat) (d : Int)
    (hdone : ∀ b ∈ db.group_boss_battles, b.id = bid → b.is_completed = true)
    (hd : 1 ≤ d) :
    attack_group_boss db bid (some uid) d = .error .battleNotFoundOrCompleted ∧
    attack_db_after db bid (some uid) d = db := by
  have hclosed : battle_closed db bid = true := by
    unfold battle_closed
    rw [List.all_eq_true]
    intro b hb
    by_cases hid : b.id = bid
    · simp [hdone b hb hid]
    · simp [hid]
  have hrun : attack_group_boss_run db bid (some uid) d =
      (.error .battleNotFoundOrCompleted, db) := by
    unfold attack_group_boss_run
    rw [if_neg (by omega), findActiveBattle_eq_none_of_closed hclosed]
  exact ⟨by unfold attack_group_boss; rw [hrun], by unfold attack_db_after; rw [hrun]⟩

/-- Claim C3 witness: a concrete attack on the completed `exDBdone` fails
and leaves the database unchanged. -/
theorem C3_witness :
    attack_group_boss exDBdone 1 (some 2) 5 = .error .battleNotFoundOrCompleted ∧
    attack_db_after exDBdone 1 (some 2) 5 = exDBdone :=
  C3_attack_after_completion_rejected exDBdone 1 2 5 (by decide) (by decide)

end StudyRPG
